import Mathlib

/-!
Verification development for the `discord-tg-bot` repository
(single source file `discord-tg-bot.py`).

The Python program is shallowly embedded below.  Conventions used throughout:

* JSON values that can occur in the bot's persisted files are modelled by
  `JTop` (top level), `JVal1` (values inside a top-level object) and `JAtom`
  (scalars).  The program only ever reads the top-level shape, the `data`
  field and the elements of an array, so two levels of nesting suffice.
* The local filesystem is a partial map `FS` from filename to file content,
  where a content is either a successfully parsed JSON document or `garbage`
  (an unreadable / unparseable file, on which `json.load` raises).
* Python `set` objects are modelled as `Finset`s.  Where the program
  enumerates a set in arbitrary order (`list(data)` in `save`, the `for`
  loop in `broadcast`), the embedding either takes the enumeration as an
  explicit list argument (save) or counts with `Finset.filter`/`card`
  (broadcast), since Python's set iteration order is unspecified.
* `async` effects are modelled by explicit state passing; network responses
  are supplied by an environment function.
-/

deriving instance DecidableEq for Except

namespace DiscordTgBot

/-- JSON scalar values. -/
inductive JAtom where
  | jstr (s : String)
  | jint (n : Int)
  | jbool (b : Bool)
  | jnull
deriving DecidableEq

/-- JSON values occurring inside a top-level object (one nesting level is all
the program inspects: it only reads `data['data']`). -/
inductive JVal1 where
  | arr (xs : List JAtom)
  | atom (a : JAtom)
deriving DecidableEq

/-- Top-level parsed JSON documents: a raw array, an object, or a scalar. -/
inductive JTop where
  | arr (xs : List JAtom)
  | obj (flds : List (String × JVal1))
  | atom (a : JAtom)
deriving DecidableEq

/-- Content of a file on disk: parsed JSON, or bytes on which `json.load`
raises (unreadable / unparseable). -/
inductive FileContent where
  | parsed (j : JTop)
  | garbage
deriving DecidableEq

/-- The filesystem: filename to content, `none` when the file does not exist. -/
def FS : Type := String → Option FileContent

/-- Pointwise filesystem update (the effect of writing a whole file). -/
def FS.upd (fs : FS) (f : String) (c : Option FileContent) : FS :=
  fun g => if g = f then c else fs g

/-- Atomic rename `src` over `dst` (`temp.replace(path)` in the source):
`dst` now holds what `src` held and `src` is gone. -/
def FS.rename (fs : FS) (src dst : String) : FS :=
  fun g => if g = dst then fs src else if g = src then none else fs g

/-- Python `dict` lookup for an object parsed from JSON, where a duplicated
key in the source text keeps the last occurrence (as `json.load` does). -/
def objGet (flds : List (String × JVal1)) (k : String) : Option JVal1 :=
  match flds with
  | [] => none
  | (k', v) :: rest =>
    match objGet rest k with
    | some w => some w
    | none => if k' = k then some v else none

/-- Index of the last `.` in a list of characters, if any. -/
def lastDotIdx (cs : List Char) : Option Nat :=
  (List.range cs.length).foldl
    (fun acc i => if cs.getD i ' ' = '.' then some i else acc) none

/-- `Path(filename).with_suffix('.tmp')` from `AtomicFileHandler.save`
(line 113): replace the final extension by `.tmp`; a name whose only dot is
leading or trailing has no suffix, so `.tmp` is appended instead. -/
def tempName (filename : String) : String :=
  let cs := filename.toList
  match lastDotIdx cs with
  | some k =>
    if 0 < k ∧ k + 1 < cs.length then String.mk (cs.take k) ++ ".tmp"
    else filename ++ ".tmp"
  | none => filename ++ ".tmp"

/-- `CHAT_FILE` constant (line 47). -/
def CHAT_FILE : String := "chat_ids.json"

/-- `SUBS_FILE` constant (line 48). -/
def SUBS_FILE : String := "subscribers.json"

namespace AtomicFileHandler

/-- Python `set(x)` applied to a JSON value, as it happens inside
`AtomicFileHandler.load`: a list yields the set of its elements, a string
yields its set of one-character strings, any other scalar raises `TypeError`
which the bare `except` turns into the default empty set. -/
def setOfVal : JVal1 → Finset JAtom
  | .arr xs => xs.toFinset
  | .atom (.jstr s) => (s.toList.map (fun c => JAtom.jstr (String.mk [c]))).toFinset
  | .atom _ => ∅

/-- `AtomicFileHandler.load` (lines 88-105): returns the empty set when the
file does not exist, when reading/parsing raises, and when the parsed value
is neither a list nor a dict containing `data`; otherwise the set of the
array's elements.  Total by construction: the bare `except` maps every
failure to the default. -/
def load (fs : FS) (filename : String) : Finset JAtom :=
  match fs filename with
  | none => ∅
  | some .garbage => ∅
  | some (.parsed j) =>
    match j with
    | .arr xs => xs.toFinset
    | .obj flds =>
      match objGet flds "data" with
      | some v => setOfVal v
      | none => ∅
    | .atom _ => ∅

/-- Where a run of `AtomicFileHandler.save` stops.  It either completes;
or the process is interrupted (crashed) before the temporary file is
written, in the middle of writing it (leaving unparseable bytes at the
temporary path), or after the temporary write but before the rename; or an
I/O exception is raised at one of those same three points and caught by the
bare `except`, in which case the call returns `False` (line 119) with the
same filesystem effects as the corresponding interruption. -/
inductive SaveOutcome where
  | completed
  | crashedBeforeTemp
  | crashedMidTemp
  | crashedAfterTemp
  | failedBeforeTemp
  | failedMidTemp
  | failedAfterTemp
deriving DecidableEq

/-- Result of a `save` run: the filesystem afterwards, and the returned
value (`none` when the process crashed before returning). -/
structure SaveResult where
  fs : FS
  ret : Option Bool

/-- `AtomicFileHandler.save` (lines 107-119): serializes the set as
`{"data": list(data)}` to the sibling `.tmp` path, then atomically renames
it over the target.  `data` is the list produced by Python's `list(...)`
enumeration of the set (order unspecified, hence an explicit argument).
The `SaveOutcome` argument selects where, if anywhere, the run is
interrupted or raises a (caught) I/O exception. -/
def save (fs : FS) (filename : String) (data : List JAtom) (o : SaveOutcome) :
    SaveResult :=
  let temp := tempName filename
  let content : FileContent := .parsed (.obj [("data", .arr data)])
  match o with
  | .crashedBeforeTemp => ⟨fs, none⟩
  | .crashedMidTemp => ⟨fs.upd temp (some .garbage), none⟩
  | .crashedAfterTemp => ⟨fs.upd temp (some content), none⟩
  | .failedBeforeTemp => ⟨fs, some false⟩
  | .failedMidTemp => ⟨fs.upd temp (some .garbage), some false⟩
  | .failedAfterTemp => ⟨fs.upd temp (some content), some false⟩
  | .completed => ⟨(fs.upd temp (some content)).rename temp filename, some true⟩

end AtomicFileHandler

/-- In-memory state of `DataStorage` (lines 122-126).  `bot_start_time` is
only used for uptime display and is not needed by any claim, so it is
omitted. -/
structure DataStorage where
  chat_ids : Finset String
  subscribers : Finset Int

/-- Fresh state constructed by `DataStorage.__init__`: both sets empty. -/
def DataStorage.init : DataStorage := ⟨∅, ∅⟩

/-- Result of a storage mutation: the returned boolean, the storage and
filesystem afterwards, and whether a save was performed. -/
structure OpResult where
  ret : Bool
  st : DataStorage
  fs : FS
  saved : Bool

namespace DataStorage

/-- `DataStorage.save_chat_ids` (lines 133-134):
`AtomicFileHandler.save(CHAT_FILE, self.chat_ids)`.  `ser` is the list
produced by Python's unspecified-order enumeration of the set; `o` is the
outcome of the underlying save (success, or a caught I/O failure returning
`False`).  On a crash outcome the call never returns; the `getD false` is
then vacuous. -/
def save_chat_ids (fs : FS) (ser : List JAtom)
    (o : AtomicFileHandler.SaveOutcome) : Bool × FS :=
  let r := AtomicFileHandler.save fs CHAT_FILE ser o
  (r.ret.getD false, r.fs)

/-- `DataStorage.save_subscribers` (lines 136-137). -/
def save_subscribers (fs : FS) (ser : List JAtom)
    (o : AtomicFileHandler.SaveOutcome) : Bool × FS :=
  let r := AtomicFileHandler.save fs SUBS_FILE ser o
  (r.ret.getD false, r.fs)

/-- `DataStorage.add_chat_id` (lines 139-143): insert the id if absent and
persist, returning the save's result — which is `False` when the save's
I/O raised, even though the in-memory set was already mutated; an
already-present id is a no-op returning `False` with no save.  `ser` is
the serialization order and `o` the save outcome used if a save happens. -/
def add_chat_id (st : DataStorage) (fs : FS) (chat_id : String)
    (ser : List JAtom) (o : AtomicFileHandler.SaveOutcome) : OpResult :=
  if chat_id ∉ st.chat_ids then
    let st' : DataStorage := { st with chat_ids := insert chat_id st.chat_ids }
    let r := save_chat_ids fs ser o
    ⟨r.1, st', r.2, true⟩
  else ⟨false, st, fs, false⟩

/-- `DataStorage.toggle_subscription` (lines 145-155): add when subscribing
a non-member, discard when unsubscribing a member; only when membership
changed is the set persisted and the save's result returned (again `False`
on a caught I/O failure despite the in-memory mutation), otherwise `False`
with no save. -/
def toggle_subscription (st : DataStorage) (fs : FS) (user_id : Int)
    (subscribe : Bool) (ser : List JAtom)
    (o : AtomicFileHandler.SaveOutcome) : OpResult :=
  let changed_st : Bool × DataStorage :=
    if subscribe = true ∧ user_id ∉ st.subscribers then
      (true, { st with subscribers := insert user_id st.subscribers })
    else if subscribe = false ∧ user_id ∈ st.subscribers then
      (true, { st with subscribers := st.subscribers.erase user_id })
    else (false, st)
  if changed_st.1 then
    let r := save_subscribers fs ser o
    ⟨r.1, changed_st.2, r.2, true⟩
  else ⟨false, st, fs, false⟩

end DataStorage

namespace MessageFormatter

end MessageFormatter

namespace TelegramAPI

/-- Rate-limiter state of `TelegramAPI`: the `last_request` timestamp
(line 185, initially `0`), in seconds modelled as rationals. -/
structure State where
  last_request : ℚ

/-- Phase 1 of `TelegramAPI._make_request` (line 188): read
`last_request`, compute the residual of the 300 ms window, and enter the
awaited sleep; entering at clock `now`, the call will wake — and dispatch
— at the returned time.  The `await` suspends here: `last_request` is NOT
yet updated, and (there being no lock) other tasks scheduled during the
sleep still observe the stale value. -/
def request_wake (st : State) (now : ℚ) : ℚ :=
  now + max 0 (3 / 10 - (now - st.last_request))

/-- Phase 2 of `_make_request` (line 189): on waking, record the current
time in `last_request` and dispatch the HTTP request.  Returns the
dispatch time and the updated limiter state. -/
def request_commit (wake : ℚ) : ℚ × State := (wake, ⟨wake⟩)

/-- A non-overlapping run of `_make_request`: phase 2 directly follows
phase 1, with no other call's phases interleaved between the read of
`last_request` and its update — the schedule of calls issued one after
another by a single task. -/
def make_request_dispatch (st : State) (now : ℚ) : ℚ × State :=
  request_commit (request_wake st now)

/-- `TelegramAPI.send_message` (lines 204-209): reject empty text or text
longer than 4096 characters with `False` before any network activity;
otherwise call `sendMessage` and report whether the response exists and has
a truthy `ok` field.  `respond chat_id` is the environment: `none` when
`_make_request` returns `None`, `some b` for a response whose `ok` field is
`b`.  Returns `(result, networkCalled)`. -/
def send_message (text : String) (chat_id : String)
    (respond : String → Option Bool) : Bool × Bool :=
  if text = "" ∨ text.length > 4096 then (false, false)
  else ((respond chat_id).getD false, true)

end TelegramAPI

namespace TelegramNotifier

/-- `TelegramNotifier.handle_start` (lines 224-227): register the chat and
reply with the catalog message at
`("telegram", "commands", "start", "welcome")` when `add_chat_id` returned
`True` — which is the save's result, not pure membership change — and at
`(..., "already_registered")` otherwise.  The embedding returns the
catalog path of the reply together with the updated state. -/
def handle_start (st : DataStorage) (fs : FS) (chat_id : String)
    (ser : List JAtom) (o : AtomicFileHandler.SaveOutcome) :
    List String × DataStorage × FS :=
  let r := DataStorage.add_chat_id st fs chat_id ser o
  (["telegram", "commands", "start",
    if r.ret then "welcome" else "already_registered"], r.st, r.fs)

/-- A Telegram `chat` object as far as the program reads it: it may lack an
`id` field. -/
structure TgChat where
  id : Option Int
deriving DecidableEq

/-- A Telegram `message` object: `text` and `chat` may be absent. -/
structure TgMessage where
  text : Option String
  chat : Option TgChat
deriving DecidableEq

/-- An inbound update: an `update_id` and an optional `message`. -/
structure TgUpdate where
  update_id : Int
  message : Option TgMessage
deriving DecidableEq

/-- Python `str(x)` on an optional integer: `str(None)` is the literal
string `"None"`. -/
def pyStr : Option Int → String
  | none => "None"
  | some n => toString n

/-- Python `str.strip()`: drop whitespace from both ends. -/
def pyStrip (s : String) : String :=
  String.mk (((s.toList.dropWhile Char.isWhitespace).reverse.dropWhile
    Char.isWhitespace).reverse)

/-- The destination identifier `process_update` derives (line 266):
`str(msg.get('chat', \x7b\x7d).get('id'))`. -/
def derived_chat_id (u : TgUpdate) : String :=
  pyStr ((u.message.getD ⟨none, none⟩).chat.getD ⟨none⟩).id

/-- `TelegramNotifier.process_update` (lines 262-280): extract stripped
text and the stringified chat id, dispatch on exact match among `/start`,
`/help`, `/status`; anything else gets the invalid-command reply.  The
embedding returns the catalog path of the reply and the updated state
(`/help`, `/status` and the invalid reply do not mutate state). -/
def process_update (st : DataStorage) (fs : FS) (u : TgUpdate)
    (ser : List JAtom) (o : AtomicFileHandler.SaveOutcome) :
    List String × DataStorage × FS :=
  let msg := u.message.getD ⟨none, none⟩
  let text := pyStrip (msg.text.getD "")
  let chat_id := pyStr (msg.chat.getD ⟨none⟩).id
  if text = "/start" then handle_start st fs chat_id ser o
  else if text = "/help" then (["telegram", "commands", "help", "title"], st, fs)
  else if text = "/status" then (["telegram", "commands", "status", "title"], st, fs)
  else (["telegram", "errors", "invalid_command"], st, fs)

end TelegramNotifier

/-- A Discord voice channel as far as `on_voice_state_update` reads it:
`discord.py` compares channels by their id. -/
structure Channel where
  cid : Int
  name : String
deriving DecidableEq

/-- Python `before.channel == after.channel` (line 320): `None` equals only
`None`; two channel objects are equal iff their ids are. -/
def chanEq : Option Channel → Option Channel → Bool
  | none, none => true
  | some a, some b => a.cid = b.cid
  | _, _ => false

namespace DiscordBot

/-- `DiscordBot.on_voice_state_update` (lines 319-360): drop the event when
the member is not a subscriber or the channel is unchanged; otherwise the
`if`/`elif` chain recognizes joined (no previous channel), left (no next
channel) or moved (different channels) and broadcasts once with that
transition's template.  The embedding returns the list of broadcast calls
made, each as (template key, channel name rendered). -/
def on_voice_state_update (subscribers : Finset Int) (memberId : Int)
    (before after : Option Channel) : List (String × String) :=
  if memberId ∉ subscribers ∨ chanEq before after = true then []
  else
    match before, after with
    | none, some c => [("joined", c.name)]
    | some c, none => [("left", c.name)]
    | some a, some b => if a.cid ≠ b.cid then [("moved", b.name)] else []
    | none, none => []

end DiscordBot

/-- The cursor update applied per update in `telegram_polling` (line 444):
`offset = max(offset, update['update_id'] + 1)`. -/
def stepOffset (offset : Int) (update_id : Int) : Int :=
  max offset (update_id + 1)

/-- The cursor after one polling batch processes its update list in
received order. -/
def pollOffsets (offset : Int) (ids : List Int) : Int :=
  ids.foldl stepOffset offset

/-- Concrete filesystem fixture: a committed snapshot at the (unusual but
legal) filename `chats.tmp`, whose temporary sibling coincides with it. -/
def c1fs0 : FS := fun g =>
  if g = "chats.tmp" then some (.parsed (.arr [JAtom.jstr "old"])) else none

/-- Concrete filesystem fixture for the load contract: a well-formed
subscribers file. -/
def c6fs : FS := fun g =>
  if g = "subscribers.json" then some (.parsed (.obj [("data", .arr [JAtom.jint 5])]))
  else none

/-- A 4096-character text (exactly at the Telegram ceiling). -/
def msg4096 : String := String.mk (List.replicate 4096 'a')

/-- A 4097-character text (one over the Telegram ceiling). -/
def msg4097 : String := String.mk (List.replicate 4097 'a')

/-!  ## Theorems  -/

/-- Completed saves round-trip: loading the file a completed
`AtomicFileHandler.save` wrote returns exactly the set that was saved
(`set(list(data)) == data`). -/
theorem load_save_completed (fs : FS) (f : String) (xs : List JAtom) :
    AtomicFileHandler.load (AtomicFileHandler.save fs f xs .completed).fs f
      = xs.toFinset := by
  simp [AtomicFileHandler.save, AtomicFileHandler.load, FS.rename, FS.upd,
        objGet, AtomicFileHandler.setOfVal]

/-- C1 (amended): for every filesystem, filename and saved set (presented
in its enumeration order `xs`), a completed save returns `True` and a
subsequent load returns exactly the saved set; and whenever the temporary
sibling path differs from the target — which holds for both files this
program saves — an interruption anywhere before the rename leaves the
previously committed snapshot at the target untouched. -/
theorem c1_atomic_save (fs : FS) (f : String) (xs : List JAtom) :
    (AtomicFileHandler.save fs f xs .completed).ret = some true ∧
    AtomicFileHandler.load (AtomicFileHandler.save fs f xs .completed).fs f
      = xs.toFinset ∧
    (tempName f ≠ f →
      (AtomicFileHandler.save fs f xs .crashedBeforeTemp).fs f = fs f ∧
      (AtomicFileHandler.save fs f xs .crashedMidTemp).fs f = fs f ∧
      (AtomicFileHandler.save fs f xs .crashedAfterTemp).fs f = fs f) := by
  refine ⟨rfl, load_save_completed fs f xs, fun h => ⟨rfl, ?_, ?_⟩⟩ <;>
    simp [AtomicFileHandler.save, FS.upd, Ne.symm h]

/-- C1 witness: the amended statement instantiated at the program's actual
chat file, whose temporary sibling `chat_ids.tmp` differs from it. -/
theorem c1_atomic_save_witness :
    tempName CHAT_FILE ≠ CHAT_FILE ∧
    (AtomicFileHandler.save c1fs0 CHAT_FILE [JAtom.jstr "x"] .completed).ret
      = some true ∧
    AtomicFileHandler.load
      (AtomicFileHandler.save c1fs0 CHAT_FILE [JAtom.jstr "x"] .completed).fs
      CHAT_FILE = [JAtom.jstr "x"].toFinset ∧
    (AtomicFileHandler.save c1fs0 CHAT_FILE [JAtom.jstr "x"] .crashedMidTemp).fs
      CHAT_FILE = c1fs0 CHAT_FILE := by
  have h := c1_atomic_save c1fs0 CHAT_FILE [JAtom.jstr "x"]
  exact ⟨by decide, h.1, h.2.1, (h.2.2 (by decide)).2.1⟩

/-- C1 counterexample: for the filename `chats.tmp` the temporary sibling
(`Path('chats.tmp').with_suffix('.tmp')`) is the file itself, so the
temporary write already overwrites the committed snapshot: a save
interrupted mid-write before the rename destroys the previous snapshot
(the old set `from the original file` is gone, a load now degrades to the
empty set).  This refutes the claim's universal quantification over
filenames. -/
theorem c1_tmp_filename_counterexample :
    tempName "chats.tmp" = "chats.tmp" ∧
    AtomicFileHandler.load c1fs0 "chats.tmp" = {JAtom.jstr "old"} ∧
    AtomicFileHandler.load
      (AtomicFileHandler.save c1fs0 "chats.tmp" [JAtom.jstr "new"]
        .crashedMidTemp).fs "chats.tmp" = ∅ ∧
    AtomicFileHandler.load
      (AtomicFileHandler.save c1fs0 "chats.tmp" [JAtom.jstr "new"]
        .crashedMidTemp).fs "chats.tmp"
      ≠ AtomicFileHandler.load c1fs0 "chats.tmp" := by decide

/-- C3: the polling cursor moves to `max(current, update_id + 1)` per
update, hence never decreases over any update batch, whatever the order or
gaps of the ids; for ids `[5, 3, 7]` from cursor `0` it ends at `8`. -/
theorem c3_cursor_monotone :
    (∀ offset update_id : Int, offset ≤ stepOffset offset update_id) ∧
    (∀ (offset : Int) (ids : List Int), offset ≤ pollOffsets offset ids) ∧
    pollOffsets 0 [5, 3, 7] = 8 := by
  refine ⟨fun o u => le_max_left _ _, ?_, by decide⟩
  intro o ids
  induction ids generalizing o with
  | nil => exact le_refl o
  | cons i rest ih => exact le_trans (le_max_left o (i + 1)) (ih (max o (i + 1)))

/-- C5 (amended): `add_chat_id` on a present id and `toggle_subscription`
towards the state already held are no-ops: unchanged storage, unchanged
filesystem, no save, `False` returned.  The complementary cases mutate the
in-memory set and attempt a save: they return `True` exactly when the save
succeeds, in which case the serialized snapshot is on disk; when the
save's I/O raises (caught, returning `False`) they return `False` with the
target file unchanged, the in-memory mutation being the only copy of the
change. -/
theorem c5_idempotent_mutations (st : DataStorage) (fs : FS) :
    (∀ (cid : String) (ser : List JAtom) (o : AtomicFileHandler.SaveOutcome),
      cid ∈ st.chat_ids →
      DataStorage.add_chat_id st fs cid ser o = ⟨false, st, fs, false⟩) ∧
    (∀ (uid : Int) (subscribe : Bool) (ser : List JAtom)
        (o : AtomicFileHandler.SaveOutcome),
      (subscribe = true ∧ uid ∈ st.subscribers) ∨
        (subscribe = false ∧ uid ∉ st.subscribers) →
      DataStorage.toggle_subscription st fs uid subscribe ser o
        = ⟨false, st, fs, false⟩) ∧
    (∀ (cid : String) (ser : List JAtom) (o : AtomicFileHandler.SaveOutcome),
      cid ∉ st.chat_ids →
      (DataStorage.add_chat_id st fs cid ser o).st.chat_ids
        = insert cid st.chat_ids ∧
      (DataStorage.add_chat_id st fs cid ser o).saved = true ∧
      ((DataStorage.add_chat_id st fs cid ser o).ret = true ↔ o = .completed) ∧
      (o = .completed →
        AtomicFileHandler.load (DataStorage.add_chat_id st fs cid ser o).fs
          CHAT_FILE = ser.toFinset) ∧
      (o = .failedBeforeTemp ∨ o = .failedMidTemp ∨ o = .failedAfterTemp →
        (DataStorage.add_chat_id st fs cid ser o).ret = false ∧
        (DataStorage.add_chat_id st fs cid ser o).fs CHAT_FILE
          = fs CHAT_FILE)) ∧
    (∀ (uid : Int) (ser : List JAtom) (o : AtomicFileHandler.SaveOutcome),
      uid ∉ st.subscribers →
      (DataStorage.toggle_subscription st fs uid true ser o).st.subscribers
        = insert uid st.subscribers ∧
      (DataStorage.toggle_subscription st fs uid true ser o).saved = true ∧
      ((DataStorage.toggle_subscription st fs uid true ser o).ret = true
        ↔ o = .completed) ∧
      (o = .completed →
        AtomicFileHandler.load
          (DataStorage.toggle_subscription st fs uid true ser o).fs SUBS_FILE
          = ser.toFinset) ∧
      (o = .failedBeforeTemp ∨ o = .failedMidTemp ∨ o = .failedAfterTemp →
        (DataStorage.toggle_subscription st fs uid true ser o).ret = false ∧
        (DataStorage.toggle_subscription st fs uid true ser o).fs SUBS_FILE
          = fs SUBS_FILE)) ∧
    (∀ (uid : Int) (ser : List JAtom) (o : AtomicFileHandler.SaveOutcome),
      uid ∈ st.subscribers →
      (DataStorage.toggle_subscription st fs uid false ser o).st.subscribers
        = st.subscribers.erase uid ∧
      (DataStorage.toggle_subscription st fs uid false ser o).saved = true ∧
      ((DataStorage.toggle_subscription st fs uid false ser o).ret = true
        ↔ o = .completed) ∧
      (o = .completed →
        AtomicFileHandler.load
          (DataStorage.toggle_subscription st fs uid false ser o).fs SUBS_FILE
          = ser.toFinset) ∧
      (o = .failedBeforeTemp ∨ o = .failedMidTemp ∨ o = .failedAfterTemp →
        (DataStorage.toggle_subscription st fs uid false ser o).ret = false ∧
        (DataStorage.toggle_subscription st fs uid false ser o).fs SUBS_FILE
          = fs SUBS_FILE)) := by
  have hchat : CHAT_FILE ≠ tempName CHAT_FILE := by decide
  have hsubs : SUBS_FILE ≠ tempName SUBS_FILE := by decide
  refine ⟨fun cid ser o h => ?_, fun uid sub ser o h => ?_,
          fun cid ser o h => ?_, fun uid ser o h => ?_, fun uid ser o h => ?_⟩
  · simp [DataStorage.add_chat_id, h]
  · rcases h with ⟨hs, hm⟩ | ⟨hs, hm⟩ <;> subst hs <;>
      simp [DataStorage.toggle_subscription, hm]
  · refine ⟨?_, ?_, ?_, fun ho => ?_, fun ho => ?_⟩
    · simp [DataStorage.add_chat_id, h]
    · simp [DataStorage.add_chat_id, h]
    · rcases o <;>
        simp [DataStorage.add_chat_id, DataStorage.save_chat_ids,
              AtomicFileHandler.save, h]
    · subst ho
      simp [DataStorage.add_chat_id, DataStorage.save_chat_ids, h,
            load_save_completed]
    · rcases ho with ho | ho | ho <;> subst ho <;>
        simp [DataStorage.add_chat_id, DataStorage.save_chat_ids,
              AtomicFileHandler.save, FS.upd, h, hchat]
  · refine ⟨?_, ?_, ?_, fun ho => ?_, fun ho => ?_⟩
    · simp [DataStorage.toggle_subscription, h]
    · simp [DataStorage.toggle_subscription, h]
    · rcases o <;>
        simp [DataStorage.toggle_subscription, DataStorage.save_subscribers,
              AtomicFileHandler.save, h]
    · subst ho
      simp [DataStorage.toggle_subscription, DataStorage.save_subscribers, h,
            load_save_completed]
    · rcases ho with ho | ho | ho <;> subst ho <;>
        simp [DataStorage.toggle_subscription, DataStorage.save_subscribers,
              AtomicFileHandler.save, FS.upd, h, hsubs]
  · refine ⟨?_, ?_, ?_, fun ho => ?_, fun ho => ?_⟩
    · simp [DataStorage.toggle_subscription, h]
    · simp [DataStorage.toggle_subscription, h]
    · rcases o <;>
        simp [DataStorage.toggle_subscription, DataStorage.save_subscribers,
              AtomicFileHandler.save, h]
    · subst ho
      simp [DataStorage.toggle_subscription, DataStorage.save_subscribers, h,
            load_save_completed]
    · rcases ho with ho | ho | ho <;> subst ho <;>
        simp [DataStorage.toggle_subscription, DataStorage.save_subscribers,
              AtomicFileHandler.save, FS.upd, h, hsubs]

/-- C5 witness: with storage holding chat `a` and subscriber `5`, re-adding
`a` and re-subscribing `5` are no-ops returning `False`; adding `b` with a
succeeding save mutates, saves and returns `True` with the new snapshot on
disk. -/
theorem c5_idempotent_mutations_witness :
    DataStorage.add_chat_id ⟨{"a"}, {5}⟩ (fun _ => none) "a" [] .completed
      = ⟨false, ⟨{"a"}, {5}⟩, (fun _ => none), false⟩ ∧
    DataStorage.toggle_subscription ⟨{"a"}, {5}⟩ (fun _ => none) 5 true []
        .completed
      = ⟨false, ⟨{"a"}, {5}⟩, (fun _ => none), false⟩ ∧
    (DataStorage.add_chat_id ⟨{"a"}, {5}⟩ (fun _ => none) "b"
        [JAtom.jstr "a", JAtom.jstr "b"] .completed).ret = true ∧
    (DataStorage.add_chat_id ⟨{"a"}, {5}⟩ (fun _ => none) "b"
        [JAtom.jstr "a", JAtom.jstr "b"] .completed).st.chat_ids
      = {"a", "b"} ∧
    AtomicFileHandler.load
      (DataStorage.add_chat_id ⟨{"a"}, {5}⟩ (fun _ => none) "b"
        [JAtom.jstr "a", JAtom.jstr "b"] .completed).fs CHAT_FILE
      = {JAtom.jstr "a", JAtom.jstr "b"} := by
  have h := c5_idempotent_mutations ⟨{"a"}, {5}⟩ (fun _ => none)
  have hb := h.2.2.1 "b" [JAtom.jstr "a", JAtom.jstr "b"] .completed (by decide)
  refine ⟨h.1 "a" [] .completed (by decide),
          h.2.1 5 true [] .completed (Or.inl ⟨rfl, by decide⟩),
          hb.2.2.1.mpr rfl, ?_, ?_⟩
  · rw [hb.1]; decide
  · rw [hb.2.2.2.1 rfl]; decide

/-- C5 counterexample: adding the absent destination `b` while the save's
I/O raises mutates the in-memory set (it now holds `a` and `b`) yet
returns `False` and persists nothing — the chat file is still absent.
This refutes the claim's unconditional "otherwise they mutate the set,
persist it, and return true". -/
theorem c5_failed_save_counterexample :
    "b" ∉ ({"a"} : Finset String) ∧
    (DataStorage.add_chat_id ⟨{"a"}, {5}⟩ (fun _ => none) "b"
        [JAtom.jstr "a", JAtom.jstr "b"] .failedBeforeTemp).ret = false ∧
    (DataStorage.add_chat_id ⟨{"a"}, {5}⟩ (fun _ => none) "b"
        [JAtom.jstr "a", JAtom.jstr "b"] .failedBeforeTemp).st.chat_ids
      = {"a", "b"} ∧
    AtomicFileHandler.load
      (DataStorage.add_chat_id ⟨{"a"}, {5}⟩ (fun _ => none) "b"
        [JAtom.jstr "a", JAtom.jstr "b"] .failedBeforeTemp).fs CHAT_FILE
      = ∅ := by
  decide

/-- C6: `load` never raises and is total by case analysis on the stored
content — empty set for a missing file, an unreadable/unparseable file, a
parsed scalar, or an object without a `data` field; the set of elements for
a raw array or for an object whose `data` field is an array. -/
theorem c6_load_total (fs : FS) (f : String) :
    (fs f = none → AtomicFileHandler.load fs f = ∅) ∧
    (fs f = some .garbage → AtomicFileHandler.load fs f = ∅) ∧
    (∀ a, fs f = some (.parsed (.atom a)) → AtomicFileHandler.load fs f = ∅) ∧
    (∀ flds, fs f = some (.parsed (.obj flds)) → objGet flds "data" = none →
      AtomicFileHandler.load fs f = ∅) ∧
    (∀ xs, fs f = some (.parsed (.arr xs)) →
      AtomicFileHandler.load fs f = xs.toFinset) ∧
    (∀ flds xs, fs f = some (.parsed (.obj flds)) →
      objGet flds "data" = some (.arr xs) →
      AtomicFileHandler.load fs f = xs.toFinset) := by
  refine ⟨fun h => ?_, fun h => ?_, fun a h => ?_, fun flds h hd => ?_,
          fun xs h => ?_, fun flds xs h hd => ?_⟩
  · simp [AtomicFileHandler.load, h]
  · simp [AtomicFileHandler.load, h]
  · simp [AtomicFileHandler.load, h]
  · simp [AtomicFileHandler.load, h, hd]
  · simp [AtomicFileHandler.load, h]
  · simp [AtomicFileHandler.load, h, hd, AtomicFileHandler.setOfVal]

/-- C6 witness: a well-formed subscribers file loads to its element set; a
missing file loads to the empty set. -/
theorem c6_load_total_witness :
    AtomicFileHandler.load c6fs SUBS_FILE = [JAtom.jint 5].toFinset ∧
    AtomicFileHandler.load c6fs "missing.json" = ∅ := by
  have h := c6_load_total c6fs SUBS_FILE
  have h2 := c6_load_total c6fs "missing.json"
  exact ⟨h.2.2.2.2.2 [("data", .arr [JAtom.jint 5])] [JAtom.jint 5]
           (by decide) (by decide),
         h2.1 (by decide)⟩

/-- C7: `send_message` returns `False` with no network call for empty text
or text strictly longer than 4096 characters; text of length exactly 4096
passes the guard and reaches the network. -/
theorem c7_send_message_guard (text chat_id : String)
    (respond : String → Option Bool) :
    ((text = "" ∨ text.length > 4096) →
      TelegramAPI.send_message text chat_id respond = (false, false)) ∧
    (text.length = 4096 →
      (TelegramAPI.send_message text chat_id respond).2 = true) := by
  refine ⟨fun h => by simp [TelegramAPI.send_message, h], fun h => ?_⟩
  have hne : ¬(text = "" ∨ text.length > 4096) := by
    rintro (rfl | hgt)
    · simp at h
    · omega
  simp [TelegramAPI.send_message, hne]

/-- C7 witness: the guard at the empty text, a 4097-character text, and a
4096-character text. -/
theorem c7_send_message_guard_witness :
    TelegramAPI.send_message "" "c" (fun _ => some true) = (false, false) ∧
    TelegramAPI.send_message msg4097 "c" (fun _ => some true) = (false, false) ∧
    (TelegramAPI.send_message msg4096 "c" (fun _ => some true)).2 = true := by
  have h4097 : msg4097.length = 4097 := List.length_replicate 4097 'a'
  have h4096 : msg4096.length = 4096 := List.length_replicate 4096 'a'
  exact ⟨(c7_send_message_guard "" "c" _).1 (Or.inl rfl),
         (c7_send_message_guard msg4097 "c" _).1 (Or.inr (by omega)),
         (c7_send_message_guard msg4096 "c" _).2 h4096⟩

/-- C8 (amended): between any two consecutive non-overlapping calls
through `_make_request` — the second entering after the first has recorded
its dispatch time, as holds for all calls issued by one task, in
particular every send of a broadcast fan-out — the dispatch times are at
least 300 ms apart: the second call sleeps for the residual of the window
measured from the recorded time of the first.  `now₂` is when the second
call is entered; no assumption on it is needed, since the sleep residual
always pushes the second dispatch past the full window. -/
theorem c8_rate_limit_gap (st : TelegramAPI.State) (now₁ now₂ : ℚ) :
    (TelegramAPI.make_request_dispatch st now₁).1 + 3 / 10 ≤
      (TelegramAPI.make_request_dispatch
        (TelegramAPI.make_request_dispatch st now₁).2 now₂).1 := by
  simp only [TelegramAPI.make_request_dispatch, TelegramAPI.request_commit,
             TelegramAPI.request_wake]
  rcases le_total (3 / 10 -
      (now₂ - (now₁ + max 0 (3 / 10 - (now₁ - st.last_request))))) 0 with hc | hc
  · rw [max_eq_left hc]
    linarith
  · rw [max_eq_right hc]
    linarith

/-- C8 counterexample: `_make_request` has no lock and suspends in the
awaited sleep between reading `last_request` (line 188) and recording it
(line 189), so two concurrently entering calls both read the same stale
timestamp.  With `last_request = 10`, a call entering at t = 10 sleeps
until 10.3; a second call from another task entering at t = 10.1 — during
that sleep, hence still seeing `last_request = 10` — also sleeps until
10.3.  Both dispatch at the same instant: gap 0, not 300 ms, refuting the
claim for overlapping calls (e.g. a poll and a broadcast send). -/
theorem c8_race_counterexample :
    (TelegramAPI.request_commit (TelegramAPI.request_wake ⟨10⟩ 10)).1
      = 103 / 10 ∧
    (TelegramAPI.request_commit (TelegramAPI.request_wake ⟨10⟩ (101 / 10))).1
      = 103 / 10 := by
  constructor
  · show (10 : ℚ) + max 0 (3 / 10 - (10 - 10)) = 103 / 10
    rw [max_eq_right (by norm_num)]
    norm_num
  · show (101 / 10 : ℚ) + max 0 (3 / 10 - (101 / 10 - 10)) = 103 / 10
    rw [max_eq_right (by norm_num)]
    norm_num

/-- C8 witness: from a fresh limiter, a call entered at t = 1 dispatches
immediately; a second call entered at the same instant is pushed at least
300 ms past the first dispatch. -/
theorem c8_rate_limit_gap_witness :
    (TelegramAPI.make_request_dispatch ⟨0⟩ 1).1 + 3 / 10 ≤
      (TelegramAPI.make_request_dispatch
        (TelegramAPI.make_request_dispatch ⟨0⟩ 1).2 1).1 :=
  c8_rate_limit_gap ⟨0⟩ 1 1

/-- C9: a voice-state event for a non-subscriber, or one whose channel
identity is unchanged, broadcasts nothing; otherwise exactly one of the
three transitions joined / left / moved applies and exactly one broadcast
is made with that transition's template. -/
theorem c9_voice_transitions (subs : Finset Int) (mid : Int)
    (b a : Option Channel) :
    (mid ∉ subs → DiscordBot.on_voice_state_update subs mid b a = []) ∧
    (chanEq b a = true → DiscordBot.on_voice_state_update subs mid b a = []) ∧
    (mid ∈ subs → chanEq b a = false →
      (DiscordBot.on_voice_state_update subs mid b a).length = 1) ∧
    (∀ c, mid ∈ subs → b = none → a = some c →
      DiscordBot.on_voice_state_update subs mid b a = [("joined", c.name)]) ∧
    (∀ c, mid ∈ subs → b = some c → a = none →
      DiscordBot.on_voice_state_update subs mid b a = [("left", c.name)]) ∧
    (∀ c c', mid ∈ subs → b = some c → a = some c' → c.cid ≠ c'.cid →
      DiscordBot.on_voice_state_update subs mid b a = [("moved", c'.name)]) := by
  refine ⟨fun h => by simp [DiscordBot.on_voice_state_update, h],
          fun h => by simp [DiscordBot.on_voice_state_update, h],
          fun hm hc => ?_,
          fun c hm hb ha => ?_,
          fun c hm hb ha => ?_,
          fun c c' hm hb ha hne => ?_⟩
  · rcases b with _ | cb <;> rcases a with _ | ca
    · simp [chanEq] at hc
    · simp [DiscordBot.on_voice_state_update, hm, hc]
    · simp [DiscordBot.on_voice_state_update, hm, hc]
    · have hne : cb.cid ≠ ca.cid := by
        intro he
        simp [chanEq, he] at hc
      simp [DiscordBot.on_voice_state_update, hm, hc, hne]
  · subst hb; subst ha
    simp [DiscordBot.on_voice_state_update, hm, chanEq]
  · subst hb; subst ha
    simp [DiscordBot.on_voice_state_update, hm, chanEq]
  · subst hb; subst ha
    simp [DiscordBot.on_voice_state_update, hm, chanEq, hne]

/-- C9 witness: the claim's scenario — empty subscriber set, member 7
joins a channel, zero broadcasts. -/
theorem c9_voice_transitions_witness :
    DiscordBot.on_voice_state_update (∅ : Finset Int) 7 none
      (some ⟨1, "General"⟩) = [] :=
  (c9_voice_transitions ∅ 7 none (some ⟨1, "General"⟩)).1
    (Finset.not_mem_empty 7)

/-- C10 (amended): when the update's message has no chat object or the
chat has no id, the derived destination is the literal string `None`
(Python `str(None)`); if such an update's stripped text is `/start`,
processing runs exactly the code path of a genuine destination with
identifier `None`: the string is registered into the in-memory chat set
whatever the save outcome, and — when it was not already registered and
the persistence save succeeds — the new snapshot is persisted like that of
any genuine destination. -/
theorem c10_missing_chat_id (st : DataStorage) (fs : FS)
    (u : TelegramNotifier.TgUpdate) (ser : List JAtom)
    (o : AtomicFileHandler.SaveOutcome)
    (hid : ((u.message.getD ⟨none, none⟩).chat.getD ⟨none⟩).id = none)
    (htext : TelegramNotifier.pyStrip
      ((u.message.getD ⟨none, none⟩).text.getD "") = "/start") :
    TelegramNotifier.derived_chat_id u = "None" ∧
    TelegramNotifier.process_update st fs u ser o
      = TelegramNotifier.handle_start st fs "None" ser o ∧
    "None" ∈ (TelegramNotifier.process_update st fs u ser o).2.1.chat_ids ∧
    ("None" ∉ st.chat_ids →
      (TelegramNotifier.process_update st fs u ser o).2.1.chat_ids
        = insert "None" st.chat_ids ∧
      (o = .completed →
        AtomicFileHandler.load
          (TelegramNotifier.process_update st fs u ser o).2.2 CHAT_FILE
          = ser.toFinset)) := by
  have hstep : TelegramNotifier.process_update st fs u ser o
      = TelegramNotifier.handle_start st fs "None" ser o := by
    simp [TelegramNotifier.process_update, htext, hid, TelegramNotifier.pyStr]
  refine ⟨by simp [TelegramNotifier.derived_chat_id, hid,
                   TelegramNotifier.pyStr], hstep, ?_, fun hN => ?_⟩
  · rw [hstep]
    by_cases hN : "None" ∈ st.chat_ids
    · simp [TelegramNotifier.handle_start, DataStorage.add_chat_id, hN]
    · simp [TelegramNotifier.handle_start, DataStorage.add_chat_id, hN]
  · rw [hstep]
    constructor
    · simp [TelegramNotifier.handle_start, DataStorage.add_chat_id, hN]
    · intro ho
      subst ho
      simp [TelegramNotifier.handle_start, DataStorage.add_chat_id,
            DataStorage.save_chat_ids, hN, load_save_completed]

/-- C10 witness: an update whose message carries `/start` but no chat
object, processed from fresh state with a succeeding save: the destination
becomes the literal `None`, which is stored and persisted. -/
theorem c10_missing_chat_id_witness :
    TelegramNotifier.derived_chat_id ⟨1, some ⟨some "/start", none⟩⟩ = "None" ∧
    (TelegramNotifier.process_update DataStorage.init (fun _ => none)
        ⟨1, some ⟨some "/start", none⟩⟩ [JAtom.jstr "None"]
        .completed).2.1.chat_ids = {"None"} ∧
    AtomicFileHandler.load
      (TelegramNotifier.process_update DataStorage.init (fun _ => none)
        ⟨1, some ⟨some "/start", none⟩⟩ [JAtom.jstr "None"] .completed).2.2
      CHAT_FILE = {JAtom.jstr "None"} := by
  have h := c10_missing_chat_id DataStorage.init (fun _ => none)
    ⟨1, some ⟨some "/start", none⟩⟩ [JAtom.jstr "None"] .completed
    (by decide) (by decide)
  have h3 := h.2.2.2 (by decide)
  exact ⟨h.1, by rw [h3.1]; decide, by rw [h3.2 rfl]; decide⟩

/-- C10 counterexample: the same chat-less `/start` update processed from
fresh state while the save's I/O raises: `None` is registered into the
in-memory set, but nothing reaches the disk — the chat file still loads as
empty.  This refutes the claim's unconditional "and persisted". -/
theorem c10_failed_save_counterexample :
    "None" ∈ (TelegramNotifier.process_update DataStorage.init (fun _ => none)
        ⟨1, some ⟨some "/start", none⟩⟩ [JAtom.jstr "None"]
        .failedBeforeTemp).2.1.chat_ids ∧
    AtomicFileHandler.load
      (TelegramNotifier.process_update DataStorage.init (fun _ => none)
        ⟨1, some ⟨some "/start", none⟩⟩ [JAtom.jstr "None"]
        .failedBeforeTemp).2.2 CHAT_FILE = ∅ := by
  decide

end DiscordTgBot
